import Mathlib

/-!
Shallow embedding of the Recommendations service (src/service/models.py and
src/service/routes.py): the Recommendation data model, its validator
(serialize/deserialize), the persistence operations (create/update/delete)
and the query facade (the find_by_* lookups), together with proofs of the
specification's testable properties.
-/

set_option maxHeartbeats 1000000

/-- Untyped Python/JSON values, as they arrive in a request payload
(the `data: dict` argument of `Recommendation.deserialize`). -/
inductive Value where
  | none : Value
  | bool (b : Bool) : Value
  | int (n : Int) : Value
  | str (s : String) : Value
  | list (xs : List Value) : Value
  | dict (kvs : List (String × Value)) : Value

/-- Python runtime type name of a value, as used in the validator's
error message (Python prints str(type(x)); we keep just the class name). -/
def Value.pyTypeName : Value → String
  | .none => "NoneType"
  | .bool _ => "bool"
  | .int _ => "int"
  | .str _ => "str"
  | .list _ => "list"
  | .dict _ => "dict"

/-- Exceptions that can escape the methods of models.py.  All constructors
except `invalidIsoformat` correspond to a `DataValidationError`;
`invalidIsoformat` is the `ValueError` raised by `date.fromisoformat` on a
malformed string, which the `except` clauses of `deserialize` (they catch
only AttributeError, KeyError and TypeError) do not convert. -/
inductive PyError where
  | invalidRecommendationMissing (field : String) : PyError
  | invalidAttribute (name : String) : PyError
  | badOrNoData : PyError
  | invalidTypeForBoolean (field : String) (tyName : String) : PyError
  | updateWithEmptyId : PyError
  | invalidIsoformat (s : String) : PyError
deriving DecidableEq, Repr

/-- Whether the escaped exception is an instance of the service's
`DataValidationError` class. -/
def PyError.isDataValidationError : PyError → Bool
  | .invalidIsoformat _ => false
  | _ => true

/-- Enumeration of valid Recommendation categories (class `Type` in
models.py; `Type` is reserved in Lean, hence the prime). -/
inductive Type' where
  | SIMILAR_PRODUCT | RECOMMENDED_FOR_YOU | UPGRADE | FREQ_BOUGHT_TOGETHER
  | ADD_ON | TRENDING | TOP_RATED | NEW_ARRIVAL | UNKNOWN
deriving DecidableEq, Repr

/-- Numeric value of each enum member, as declared in models.py. -/
def Type'.value : Type' → Nat
  | .SIMILAR_PRODUCT => 1
  | .RECOMMENDED_FOR_YOU => 2
  | .UPGRADE => 3
  | .FREQ_BOUGHT_TOGETHER => 4
  | .ADD_ON => 5
  | .TRENDING => 6
  | .TOP_RATED => 7
  | .NEW_ARRIVAL => 8
  | .UNKNOWN => 15

/-- Member name of each enum member (Python's `member.name`). -/
def Type'.name : Type' → String
  | .SIMILAR_PRODUCT => "SIMILAR_PRODUCT"
  | .RECOMMENDED_FOR_YOU => "RECOMMENDED_FOR_YOU"
  | .UPGRADE => "UPGRADE"
  | .FREQ_BOUGHT_TOGETHER => "FREQ_BOUGHT_TOGETHER"
  | .ADD_ON => "ADD_ON"
  | .TRENDING => "TRENDING"
  | .TOP_RATED => "TOP_RATED"
  | .NEW_ARRIVAL => "NEW_ARRIVAL"
  | .UNKNOWN => "UNKNOWN"

/-- Member lookup by name: the member-map fallback of attribute access on
the Enum class (`Type._member_map_[s]`), an exact, case-sensitive match
against the nine member names.  This is only the last step of
`getattr(Type, s)`; see `Type'.getattr` for the full semantics, under
which non-member class attributes are found before this map is tried. -/
def Type'.fromName (s : String) : Option Type' :=
  if s = "SIMILAR_PRODUCT" then some .SIMILAR_PRODUCT
  else if s = "RECOMMENDED_FOR_YOU" then some .RECOMMENDED_FOR_YOU
  else if s = "UPGRADE" then some .UPGRADE
  else if s = "FREQ_BOUGHT_TOGETHER" then some .FREQ_BOUGHT_TOGETHER
  else if s = "ADD_ON" then some .ADD_ON
  else if s = "TRENDING" then some .TRENDING
  else if s = "TOP_RATED" then some .TOP_RATED
  else if s = "NEW_ARRIVAL" then some .NEW_ARRIVAL
  else if s = "UNKNOWN" then some .UNKNOWN
  else Option.none

/-- Non-member attribute names of the Enum class `Type` on which
`getattr(Type, s)` succeeds instead of raising AttributeError, modelled
from CPython's Enum semantics: ordinary class and metaclass attributes —
methods such as `mro`, dunders such as `__doc__` or `__members__`, and
Enum-internal names such as `_member_map_` or `_missing_` — are returned
as-is by normal attribute lookup.  Only `name` and `value` (whose
DynamicClassAttribute descriptor raises on class access) and genuinely
unknown names fall through to the member map and, failing there, raise
AttributeError.  The list fixes a representative set of those attribute
names (the exact set varies slightly with the CPython version). -/
def Type'.enumClassAttrs : List String :=
  ["mro", "__doc__", "__module__", "__qualname__", "__name__", "__class__",
   "__members__", "__bases__", "__base__", "__dict__", "__new__", "__init__",
   "_missing_", "_generate_next_value_", "_member_map_", "_member_names_",
   "_value2member_map_"]

/-- Outcome of `getattr(Type, s)` on the Enum class: an enum member, a
non-member class attribute returned without raising (the lookup does not
fail closed), or an AttributeError. -/
inductive GetattrOutcome where
  | member (t : Type') : GetattrOutcome
  | classAttr (s : String) : GetattrOutcome
  | attrError : GetattrOutcome
deriving DecidableEq, Repr

/-- Semantics of `getattr(Type, s)` for a string `s`: member names yield
the member, other attribute names of the class yield the (non-member)
attribute object, and everything else raises AttributeError. -/
def Type'.getattr (s : String) : GetattrOutcome :=
  match Type'.fromName s with
  | some t => .member t
  | Option.none =>
    if s ∈ Type'.enumClassAttrs then .classAttr s else .attrError

/-- Calendar date (Python's `datetime.date`): year, month, day. -/
structure Date where
  year : Nat
  month : Nat
  day : Nat
deriving DecidableEq, Repr

/-- Leap-year rule of the proleptic Gregorian calendar used by
`datetime.date`. -/
def Date.isLeap (y : Nat) : Bool :=
  y % 4 = 0 && (y % 100 != 0 || y % 400 = 0)

/-- Number of days in a month, as validated by `datetime.date`. -/
def Date.daysInMonth (y m : Nat) : Nat :=
  if m = 1 || m = 3 || m = 5 || m = 7 || m = 8 || m = 10 || m = 12 then 31
  else if m = 4 || m = 6 || m = 9 || m = 11 then 30
  else if m = 2 then (if Date.isLeap y then 29 else 28)
  else 0

/-- Validity of a date under `datetime.date`'s constructor constraints
(MINYEAR = 1, MAXYEAR = 9999). -/
def Date.Valid (d : Date) : Prop :=
  1 ≤ d.year ∧ d.year ≤ 9999 ∧ 1 ≤ d.month ∧ d.month ≤ 12 ∧
    1 ≤ d.day ∧ d.day ≤ Date.daysInMonth d.year d.month

instance (d : Date) : Decidable d.Valid := by
  unfold Date.Valid; infer_instance

/-- Python's `date.__le__`: lexicographic comparison on (year, month, day). -/
def Date.le (a b : Date) : Bool :=
  a.year < b.year ||
    (a.year = b.year && (a.month < b.month ||
      (a.month = b.month && a.day ≤ b.day)))

/-- ISO formatting `date.isoformat()`, i.e. "%04d-%02d-%02d"; exact for the
year range 1..9999 guaranteed by `datetime.date`. -/
def Date.isoformat (d : Date) : String :=
  ⟨[(d.year / 1000 % 10).digitChar, (d.year / 100 % 10).digitChar,
    (d.year / 10 % 10).digitChar, (d.year % 10).digitChar, '-',
    (d.month / 10 % 10).digitChar, (d.month % 10).digitChar, '-',
    (d.day / 10 % 10).digitChar, (d.day % 10).digitChar]⟩

/-- Strict ISO-8601 calendar-date parsing, the semantics of
`date.fromisoformat` (which, in this Python version, accepts exactly the
10-character form YYYY-MM-DD and range-checks the components). Returns
`Option.none` where Python raises ValueError. -/
def Date.parseIso (s : String) : Option Date :=
  match s.data with
  | [y3, y2, y1, y0, h1, m1, m0, h2, d1, d0] =>
    if y3.isDigit && y2.isDigit && y1.isDigit && y0.isDigit && h1 = '-' &&
        m1.isDigit && m0.isDigit && h2 = '-' && d1.isDigit && d0.isDigit then
      let y := 1000 * (y3.toNat - 48) + 100 * (y2.toNat - 48) +
        10 * (y1.toNat - 48) + (y0.toNat - 48)
      let m := 10 * (m1.toNat - 48) + (m0.toNat - 48)
      let d := 10 * (d1.toNat - 48) + (d0.toNat - 48)
      if 1 ≤ y ∧ 1 ≤ m ∧ m ≤ 12 ∧ 1 ≤ d ∧ d ≤ Date.daysInMonth y m then
        some ⟨y, m, d⟩
      else Option.none
    else Option.none
  | _ => Option.none

/-- The `date.fromisoformat` call as it appears inside `deserialize`,
applied to an untyped value: a non-string argument raises TypeError (mapped
by the `except TypeError` clause to the generic "bad or no data"
DataValidationError); a malformed string raises ValueError, which escapes
`deserialize` uncaught. -/
def Date.fromisoformat (v : Value) : Except PyError Date :=
  match v with
  | .str s =>
    match Date.parseIso s with
    | some d => .ok d
    | Option.none => .error (.invalidIsoformat s)
  | _ => .error .badOrNoData

/-- The in-memory state of a `Recommendation` object.  `id` is the
surrogate primary key (`Option.none` models Python `None`).  The three
fields that `deserialize` assigns without a type check are kept untyped
(`Value`); the two flags, the date and the category are type-checked or
converted by `deserialize`, hence typed. -/
structure PyObj where
  id : Option Nat
  product_id : Value
  user_id : Value
  user_segment : Value
  viewed_in_last7d : Bool
  bought_in_last30d : Bool
  last_relevance_date : Date
  recommendation_type : Type'

namespace Recommendation

/-- Subscript access `data[k]` inside the `try` block of `deserialize`,
with the exception mapping applied by its `except` clauses: a missing key
raises KeyError k ("Invalid Recommendation: missing k"); subscripting a
non-dict raises TypeError ("...bad or no data..."). -/
def getItem (data : Value) (k : String) : Except PyError Value :=
  match data with
  | .dict kvs =>
    match kvs.lookup k with
    | some v => .ok v
    | Option.none => .error (.invalidRecommendationMissing k)
  | _ => .error .badOrNoData

/-- Serializes a Recommendation into a dictionary (models.py `serialize`). -/
def serialize (self : PyObj) : Value :=
  .dict
    [("id", match self.id with | Option.none => .none | some n => .int n),
     ("product_id", self.product_id),
     ("user_id", self.user_id),
     ("user_segment", self.user_segment),
     ("viewed_in_last7d", .bool self.viewed_in_last7d),
     ("bought_in_last30d", .bool self.bought_in_last30d),
     ("last_relevance_date", .str self.last_relevance_date.isoformat),
     ("recommendation_type", .str self.recommendation_type.name)]

/-- Deserializes a Recommendation from a dictionary (models.py
`deserialize`), with the statements of the `try` block in source order and
the exception mapping of the `except` clauses applied at each raising
site.  On success it returns the updated object (the `return self`).
The `getattr(Type, data["recommendation_type"])` step follows
`Type'.getattr`: a non-string name raises TypeError (mapped to "bad or no
data"), an unknown name raises AttributeError (mapped to "Invalid
attribute: name"), and a non-member class-attribute name succeeds — Python
stores the non-member object and returns self.  That object lies outside
the member-typed `recommendation_type` slot of `PyObj`, so in that one
branch the embedding leaves the slot at its previous value; no theorem
relies on the slot's content there. -/
def deserialize (self : PyObj) (data : Value) : Except PyError PyObj :=
  match getItem data "product_id" with
  | .error e => .error e
  | .ok pid =>
  match getItem data "user_id" with
  | .error e => .error e
  | .ok uid =>
  match getItem data "user_segment" with
  | .error e => .error e
  | .ok useg =>
  match getItem data "viewed_in_last7d" with
  | .error e => .error e
  | .ok v7 =>
  match v7 with
  | .bool viewed =>
    match getItem data "bought_in_last30d" with
    | .error e => .error e
    | .ok b30 =>
    match b30 with
    | .bool bought =>
      match getItem data "last_relevance_date" with
      | .error e => .error e
      | .ok dv =>
      match Date.fromisoformat dv with
      | .error e => .error e
      | .ok dt =>
      match getItem data "recommendation_type" with
      | .error e => .error e
      | .ok tv =>
      match tv with
      | .str s =>
        match Type'.getattr s with
        | .member ty =>
          .ok { self with
            product_id := pid, user_id := uid, user_segment := useg,
            viewed_in_last7d := viewed, bought_in_last30d := bought,
            last_relevance_date := dt, recommendation_type := ty }
        | .classAttr _ =>
          .ok { self with
            product_id := pid, user_id := uid, user_segment := useg,
            viewed_in_last7d := viewed, bought_in_last30d := bought,
            last_relevance_date := dt }
        | .attrError => .error (.invalidAttribute s)
      | _ => .error .badOrNoData
    | _ => .error (.invalidTypeForBoolean "bought_in_last30d" b30.pyTypeName)
  | _ => .error (.invalidTypeForBoolean "viewed_in_last7d" v7.pyTypeName)

end Recommendation

/-- SQL equality of an integer column against an integer literal, as
generated by `cls.column == by_id` in the query filters. -/
def Value.eqInt : Value → Int → Bool
  | .int x, v => x == v
  | _, _ => false

/-- SQL equality of a string column against a string literal. -/
def Value.eqStr : Value → String → Bool
  | .str x, v => x == v
  | _, _ => false

/-- State of the relational store backing the service: the persisted rows
plus the auto-increment counter for the integer primary key (SQL sequences
start at 1). -/
structure DBState where
  rows : List PyObj
  nextId : Nat

/-- The row ids of a store state. -/
def DBState.ids (db : DBState) : List (Option Nat) :=
  db.rows.map (fun r => r.id)

/-- Well-formedness of a store state: every persisted row carries a
positive id below the auto-increment counter, and ids are pairwise
distinct. -/
def DBState.WF (db : DBState) : Prop :=
  1 ≤ db.nextId ∧
    (∀ r ∈ db.rows, 1 ≤ r.id.getD 0 ∧ r.id.getD 0 < db.nextId) ∧
    db.rows.Pairwise (fun a b => a.id ≠ b.id)

instance (db : DBState) : Decidable db.WF := by
  unfold DBState.WF; infer_instance

namespace Recommendation

/-- Creates a Recommendation to the database (models.py `create`): the
method discards any pre-set id (`self.id = None`) and the store assigns
the next primary key on commit.  Returns the new store state and the
object as mutated by the call. -/
def create (db : DBState) (self : PyObj) : DBState × PyObj :=
  let self' := { self with id := some db.nextId }
  (⟨db.rows ++ [self'], db.nextId + 1⟩, self')

/-- Updates a Recommendation to the database (models.py `update`):
`if not self.id` raises the DataValidationError (Python treats both None
and 0 as falsy); otherwise the commit persists the object's state over
the row with the same primary key. -/
def update (db : DBState) (self : PyObj) : Except PyError DBState :=
  match self.id with
  | Option.none => .error .updateWithEmptyId
  | some i =>
    if i = 0 then .error .updateWithEmptyId
    else .ok ⟨db.rows.map (fun r => if r.id = some i then self else r), db.nextId⟩

/-- The observable effect of calling `update`: the store state after the
call (unchanged when the call raises) and the exception, if any. -/
def updateRun (db : DBState) (self : PyObj) : DBState × Option PyError :=
  match update db self with
  | .ok db2 => (db2, Option.none)
  | .error e => (db, some e)

/-- Removes a Recommendation from the data store (models.py `delete`):
`db.session.delete(self)` removes the row with the object's primary
key. -/
def delete (db : DBState) (self : PyObj) : DBState :=
  ⟨db.rows.filter (fun r => r.id != self.id), db.nextId⟩

/-- Returns all of the Recommendations in the database (models.py
`all`). -/
def all (db : DBState) : List PyObj :=
  db.rows

/-- Finds a Recommendation by its ID (models.py `find`,
`cls.query.get`). -/
def find (db : DBState) (by_id : Nat) : Option PyObj :=
  db.rows.find? (fun r => r.id == some by_id)

/-- Returns all Recommendations for given Product ID. -/
def find_by_product_id (db : DBState) (by_id : Int) : List PyObj :=
  db.rows.filter (fun r => r.product_id.eqInt by_id)

/-- Returns all Recommendations for given User ID. -/
def find_by_user_id (db : DBState) (by_id : Int) : List PyObj :=
  db.rows.filter (fun r => r.user_id.eqInt by_id)

/-- Returns all Recommendations for given User Segment. -/
def find_by_user_segment (db : DBState) (segment : String) : List PyObj :=
  db.rows.filter (fun r => r.user_segment.eqStr segment)

/-- Returns all Recommendations viewed in last 7d (the Python default for
the argument is True). -/
def find_by_viewed_in_last7d (db : DBState) (viewed_in_last7d : Bool) : List PyObj :=
  db.rows.filter (fun r => r.viewed_in_last7d == viewed_in_last7d)

/-- Returns all Recommendations bought in last 30d (the Python default for
the argument is True). -/
def find_by_bought_in_last30d (db : DBState) (bought_in_last30d : Bool) : List PyObj :=
  db.rows.filter (fun r => r.bought_in_last30d == bought_in_last30d)

/-- Returns all Recommendations by given last relevance date; the argument
string goes through `date.fromisoformat`, whose ValueError on a malformed
string escapes the classmethod. -/
def find_by_last_relevance_date (db : DBState) (last_relevance_date : String) :
    Except PyError (List PyObj) :=
  match Date.parseIso last_relevance_date with
  | some d => .ok (db.rows.filter (fun r => r.last_relevance_date == d))
  | Option.none => .error (.invalidIsoformat last_relevance_date)

/-- Returns all Recommendations on or after given last relevance date
(`cls.last_relevance_date >= date.fromisoformat(...)`). -/
def find_after_last_relevance_date (db : DBState) (last_relevance_date : String) :
    Except PyError (List PyObj) :=
  match Date.parseIso last_relevance_date with
  | some d => .ok (db.rows.filter (fun r => Date.le d r.last_relevance_date))
  | Option.none => .error (.invalidIsoformat last_relevance_date)

/-- Returns all Recommendations for given Type (the Python default for the
argument is Type.UNKNOWN). -/
def find_by_recommendation_type (db : DBState) (recommendation_type : Type') : List PyObj :=
  db.rows.filter (fun r => r.recommendation_type == recommendation_type)

end Recommendation

/-- The DELETE /recommendations/(id) handler (routes.py
`delete_recommendation`): look the id up, delete the row if present, and
answer 204 with an empty body either way.  Returns the store state after
the request, the HTTP status and the response body. -/
def delete_recommendation (db : DBState) (rec_id : Nat) : DBState × Nat × String :=
  match Recommendation.find db rec_id with
  | some r => (Recommendation.delete db r, 204, "")
  | Option.none => (db, 204, "")

/-- The PUT /recommendations/(id) handler (routes.py
`update_recommendations`), after the content-type check: 404 when the id
is absent; otherwise deserialize the body into the found row, force
`recommendation.id = rec_id`, and commit.  An exception escaping
deserialize or update surfaces as a 500; the transaction is not
committed in that case. -/
def update_recommendations (db : DBState) (rec_id : Nat) (body : Value) : DBState × Nat :=
  match Recommendation.find db rec_id with
  | Option.none => (db, 404)
  | some r =>
    match Recommendation.deserialize r body with
    | .error _ => (db, 500)
    | .ok r2 =>
      match Recommendation.update db { r2 with id := some rec_id } with
      | .ok db2 => (db2, 200)
      | .error _ => (db, 500)

/-- A Recommendation object with every attribute at its initial value, as
used below to express that `deserialize` overwrites every field except
`id`. -/
def freshPyObj : PyObj :=
  ⟨Option.none, .none, .none, .none, false, false, ⟨2000, 1, 1⟩, .UNKNOWN⟩

/-- A concrete well-typed record used as witness input. -/
def sampleRec : PyObj :=
  ⟨some 3, .int 5, .int 7, .str "pet owners", true, false, ⟨2022, 2, 28⟩, .TRENDING⟩

/-- A second concrete record used as witness input. -/
def sampleRec2 : PyObj :=
  ⟨some 1, .int 5, .int 8, .str "students", false, true, ⟨2021, 12, 31⟩, .UPGRADE⟩

/-- A concrete store with two persisted rows used as witness input. -/
def sampleDb : DBState :=
  ⟨[sampleRec, sampleRec2], 4⟩

/-- A concrete payload whose recommendation_type is not a member name. -/
def sampleKvsBadType : List (String × Value) :=
  [("product_id", .int 5), ("user_id", .int 7), ("user_segment", .str "students"),
   ("viewed_in_last7d", .bool true), ("bought_in_last30d", .bool false),
   ("last_relevance_date", .str "2022-05-01"), ("recommendation_type", .str "manual")]

/-- A concrete payload whose recommendation_type is "mro", a non-member
attribute of the Enum class. -/
def sampleKvsMro : List (String × Value) :=
  [("product_id", .int 5), ("user_id", .int 7), ("user_segment", .str "students"),
   ("viewed_in_last7d", .bool true), ("bought_in_last30d", .bool false),
   ("last_relevance_date", .str "2022-05-01"), ("recommendation_type", .str "mro")]

/-- A concrete payload whose viewed_in_last7d is the string "true" rather
than a boolean. -/
def sampleKvsStrBool : List (String × Value) :=
  [("product_id", .int 5), ("user_id", .int 7), ("user_segment", .str "students"),
   ("viewed_in_last7d", .str "true"), ("bought_in_last30d", .bool false),
   ("last_relevance_date", .str "2022-05-01"), ("recommendation_type", .str "TRENDING")]

theorem digitChar_isDigit (n : Nat) (h : n < 10) : (Nat.digitChar n).isDigit = true := by
  interval_cases n <;> decide

theorem digitChar_toNat (n : Nat) (h : n < 10) : (Nat.digitChar n).toNat - 48 = n := by
  interval_cases n <;> decide

theorem Date.daysInMonth_le (y m : Nat) : Date.daysInMonth y m ≤ 31 := by
  unfold Date.daysInMonth
  split_ifs <;> norm_num

/-- Formatting a valid date and parsing it back is the identity: the
round-trip core of `isoformat` / `fromisoformat`. -/
theorem Date.parseIso_isoformat (dt : Date) (h : dt.Valid) :
    Date.parseIso dt.isoformat = some dt := by
  obtain ⟨hy1, hy2, hm1, hm2, hd1, hd2⟩ := h
  have h10 : ∀ n : Nat, n % 10 < 10 := fun n => Nat.mod_lt _ (by norm_num)
  have hdm := Date.daysInMonth_le dt.year dt.month
  unfold Date.isoformat Date.parseIso
  simp only [digitChar_isDigit _ (h10 _), digitChar_toNat _ (h10 _)]
  have hy : 1000 * (dt.year / 1000 % 10) + 100 * (dt.year / 100 % 10) +
      10 * (dt.year / 10 % 10) + dt.year % 10 = dt.year := by omega
  have hm : 10 * (dt.month / 10 % 10) + dt.month % 10 = dt.month := by omega
  have hd : 10 * (dt.day / 10 % 10) + dt.day % 10 = dt.day := by omega
  have hcond : 1 ≤ dt.year ∧ 1 ≤ dt.month ∧ dt.month ≤ 12 ∧ 1 ≤ dt.day ∧
      dt.day ≤ Date.daysInMonth dt.year dt.month := ⟨hy1, hm1, hm2, hd1, hd2⟩
  simp [hy, hm, hd, hcond]

theorem Type'.fromName_name (t : Type') : Type'.fromName t.name = some t := by
  cases t <;> rfl

theorem Value.eqInt_iff (x : Value) (v : Int) : x.eqInt v = true ↔ x = .int v := by
  cases x <;> simp [Value.eqInt]

theorem Value.eqStr_iff (x : Value) (v : String) : x.eqStr v = true ↔ x = .str v := by
  cases x <;> simp [Value.eqStr]

theorem delete_recommendation_of_find_none (d : DBState) (rec_id : Nat)
    (h : Recommendation.find d rec_id = Option.none) :
    delete_recommendation d rec_id = (d, 204, "") := by
  unfold delete_recommendation
  rw [h]

theorem find_after_delete_recommendation (d : DBState) (rec_id : Nat) :
    Recommendation.find (delete_recommendation d rec_id).1 rec_id = Option.none := by
  rcases h : Recommendation.find d rec_id with _ | r
  · rw [delete_recommendation_of_find_none d rec_id h]
    exact h
  · have h' : List.find? (fun x => x.id == some rec_id) d.rows = some r := h
    have hp := List.find?_some h'
    have hr : r.id = some rec_id := by simpa using hp
    unfold delete_recommendation
    rw [h]
    show Recommendation.find (Recommendation.delete d r) rec_id = Option.none
    unfold Recommendation.find Recommendation.delete
    rw [List.find?_eq_none]
    intro x hx
    have hmem := List.mem_filter.mp hx
    have hne : x.id ≠ r.id := by simpa using hmem.2
    rw [hr] at hne
    simpa using hne

/-- C6: calling update on a record whose id was never assigned by
persistence always raises the missing-id DataValidationError, and the
store is left unchanged by the failed call. -/
theorem C6_update_without_id (db : DBState) (self : PyObj)
    (h : self.id = Option.none) :
    Recommendation.updateRun db self = (db, some PyError.updateWithEmptyId) ∧
      PyError.isDataValidationError PyError.updateWithEmptyId = true := by
  refine ⟨?_, rfl⟩
  unfold Recommendation.updateRun Recommendation.update
  rw [h]

/-- C6 witness: the update failure at a concrete store and a concrete
never-persisted record. -/
theorem C6_update_without_id_witness :
    freshPyObj.id = Option.none ∧
      (Recommendation.updateRun ⟨[], 1⟩ freshPyObj =
          (⟨[], 1⟩, some PyError.updateWithEmptyId) ∧
        PyError.isDataValidationError PyError.updateWithEmptyId = true) :=
  ⟨rfl, C6_update_without_id ⟨[], 1⟩ freshPyObj rfl⟩

/-- C7: the DELETE route is idempotent — deleting an id twice yields the
same outcome (204, empty body) both times, the second call leaves the
store unchanged, and deleting an absent id is a silent no-op. -/
theorem C7_delete_idempotent (db : DBState) (rec_id : Nat) :
    (delete_recommendation db rec_id).2 = (204, "") ∧
    (delete_recommendation (delete_recommendation db rec_id).1 rec_id).2 = (204, "") ∧
    (delete_recommendation (delete_recommendation db rec_id).1 rec_id).1 =
      (delete_recommendation db rec_id).1 ∧
    (Recommendation.find db rec_id = Option.none →
      (delete_recommendation db rec_id).1 = db) := by
  have hstat : ∀ d : DBState, (delete_recommendation d rec_id).2 = (204, "") := by
    intro d
    rcases h : Recommendation.find d rec_id with _ | r
    · rw [delete_recommendation_of_find_none d rec_id h]
    · unfold delete_recommendation
      rw [h]
  refine ⟨hstat db, hstat _, ?_, ?_⟩
  · rw [delete_recommendation_of_find_none _ _
      (find_after_delete_recommendation db rec_id)]
  · intro h
    rw [delete_recommendation_of_find_none db rec_id h]

/-- C7 witness: the idempotence conjunction at a concrete store holding
one row with id 7. -/
theorem C7_delete_idempotent_witness :
    (delete_recommendation ⟨[{ freshPyObj with id := some 7 }], 8⟩ 7).2 = (204, "") ∧
    (delete_recommendation
        (delete_recommendation ⟨[{ freshPyObj with id := some 7 }], 8⟩ 7).1 7).2 =
      (204, "") ∧
    (delete_recommendation
        (delete_recommendation ⟨[{ freshPyObj with id := some 7 }], 8⟩ 7).1 7).1 =
      (delete_recommendation ⟨[{ freshPyObj with id := some 7 }], 8⟩ 7).1 ∧
    (Recommendation.find ⟨[{ freshPyObj with id := some 7 }], 8⟩ 7 = Option.none →
      (delete_recommendation ⟨[{ freshPyObj with id := some 7 }], 8⟩ 7).1 =
        ⟨[{ freshPyObj with id := some 7 }], 8⟩) :=
  C7_delete_idempotent ⟨[{ freshPyObj with id := some 7 }], 8⟩ 7

/-- C9: a non-mapping input (anything whose runtime type is not dict) does
not crash deserialize with an unhandled exception: it fails with the
generic "bad or no data" DataValidationError. -/
theorem C9_non_mapping_bad_or_no_data (self : PyObj) (v : Value)
    (h : v.pyTypeName ≠ "dict") :
    Recommendation.deserialize self v = .error .badOrNoData ∧
      PyError.isDataValidationError .badOrNoData = true := by
  refine ⟨?_, rfl⟩
  cases v with
  | dict kvs => exact absurd rfl h
  | none => rfl
  | bool b => rfl
  | int n => rfl
  | str s => rfl
  | list xs => rfl

/-- C9 witness: deserializing a raw string fails with the generic error. -/
theorem C9_non_mapping_witness :
    (Value.str "this is not a dictionary").pyTypeName ≠ "dict" ∧
      (Recommendation.deserialize freshPyObj (Value.str "this is not a dictionary") =
          .error .badOrNoData ∧
        PyError.isDataValidationError .badOrNoData = true) :=
  ⟨by decide,
   C9_non_mapping_bad_or_no_data freshPyObj (Value.str "this is not a dictionary")
     (by decide)⟩

/-- C10: deserialize neither reads nor writes the id field — the id of
the result is the id of the receiver (on success), the outcome is the
same whatever the receiver's id, and a fresh (never-persisted) receiver
keeps a null id. -/
theorem C10_deserialize_id_frame (self : PyObj) (data : Value) (i : Option Nat) :
    Except.map (fun r => r.id) (Recommendation.deserialize self data) =
      Except.map (fun _ => self.id) (Recommendation.deserialize self data) ∧
    Recommendation.deserialize { self with id := i } data =
      Except.map (fun r => { r with id := i }) (Recommendation.deserialize self data) ∧
    Except.map (fun r => r.id)
        (Recommendation.deserialize { self with id := Option.none } data) =
      Except.map (fun _ => (Option.none : Option Nat))
        (Recommendation.deserialize { self with id := Option.none } data) := by
  refine ⟨?_, ?_, ?_⟩ <;>
    (unfold Recommendation.deserialize; repeat' split) <;>
    rfl

/-- C4 (code bug): deserializing a payload whose last_relevance_date is a
string that is not a valid ISO-8601 date lets date.fromisoformat's
ValueError escape uncaught — the failure is not a DataValidationError,
unlike the other validation failures. -/
theorem C4_unparseable_date_not_validation_error :
    Recommendation.deserialize freshPyObj
        (Value.dict
          [("product_id", Value.int 5), ("user_id", Value.int 7),
           ("user_segment", Value.str "students"),
           ("viewed_in_last7d", Value.bool true),
           ("bought_in_last30d", Value.bool false),
           ("last_relevance_date", Value.str "2022-17-06"),
           ("recommendation_type", Value.str "TRENDING")]) =
      .error (PyError.invalidIsoformat "2022-17-06") ∧
    PyError.isDataValidationError (PyError.invalidIsoformat "2022-17-06") = false :=
  ⟨rfl, rfl⟩

/-- C1: every named lookup of the Query Facade returns exactly the subset
of stored records whose corresponding field equals the given value, with
the date lower-bound lookup using an inclusive `>=` comparison. -/
theorem C1_query_facade (db : DBState) (r : PyObj) (pv uv : Int) (seg : String)
    (bv bb : Bool) (ty : Type') (s : String) (d : Date)
    (hparse : Date.parseIso s = some d) :
    (r ∈ Recommendation.find_by_product_id db pv ↔
      r ∈ db.rows ∧ r.product_id = Value.int pv) ∧
    (r ∈ Recommendation.find_by_user_id db uv ↔
      r ∈ db.rows ∧ r.user_id = Value.int uv) ∧
    (r ∈ Recommendation.find_by_user_segment db seg ↔
      r ∈ db.rows ∧ r.user_segment = Value.str seg) ∧
    (r ∈ Recommendation.find_by_viewed_in_last7d db bv ↔
      r ∈ db.rows ∧ r.viewed_in_last7d = bv) ∧
    (r ∈ Recommendation.find_by_bought_in_last30d db bb ↔
      r ∈ db.rows ∧ r.bought_in_last30d = bb) ∧
    (Recommendation.find_by_last_relevance_date db s =
      .ok (db.rows.filter (fun x => x.last_relevance_date == d))) ∧
    (r ∈ db.rows.filter (fun x => x.last_relevance_date == d) ↔
      r ∈ db.rows ∧ r.last_relevance_date = d) ∧
    (Recommendation.find_after_last_relevance_date db s =
      .ok (db.rows.filter (fun x => Date.le d x.last_relevance_date))) ∧
    (r ∈ db.rows.filter (fun x => Date.le d x.last_relevance_date) ↔
      r ∈ db.rows ∧ Date.le d r.last_relevance_date = true) ∧
    (r ∈ Recommendation.find_by_recommendation_type db ty ↔
      r ∈ db.rows ∧ r.recommendation_type = ty) := by
  refine ⟨?_, ?_, ?_, ?_, ?_, ?_, ?_, ?_, ?_, ?_⟩
  · simp [Recommendation.find_by_product_id, List.mem_filter, Value.eqInt_iff]
  · simp [Recommendation.find_by_user_id, List.mem_filter, Value.eqInt_iff]
  · simp [Recommendation.find_by_user_segment, List.mem_filter, Value.eqStr_iff]
  · simp [Recommendation.find_by_viewed_in_last7d, List.mem_filter]
  · simp [Recommendation.find_by_bought_in_last30d, List.mem_filter]
  · unfold Recommendation.find_by_last_relevance_date
    rw [hparse]
  · simp [List.mem_filter]
  · unfold Recommendation.find_after_last_relevance_date
    rw [hparse]
  · simp [List.mem_filter]
  · simp [Recommendation.find_by_recommendation_type, List.mem_filter]

/-- C1 witness: the filter characterizations at a concrete two-row store
and concrete filter values. -/
theorem C1_query_facade_witness :
    Date.parseIso "2022-01-15" = some ⟨2022, 1, 15⟩ ∧
    ((sampleRec ∈ Recommendation.find_by_product_id sampleDb 5 ↔
      sampleRec ∈ sampleDb.rows ∧ sampleRec.product_id = Value.int 5) ∧
    (sampleRec ∈ Recommendation.find_by_user_id sampleDb 7 ↔
      sampleRec ∈ sampleDb.rows ∧ sampleRec.user_id = Value.int 7) ∧
    (sampleRec ∈ Recommendation.find_by_user_segment sampleDb "pet owners" ↔
      sampleRec ∈ sampleDb.rows ∧ sampleRec.user_segment = Value.str "pet owners") ∧
    (sampleRec ∈ Recommendation.find_by_viewed_in_last7d sampleDb true ↔
      sampleRec ∈ sampleDb.rows ∧ sampleRec.viewed_in_last7d = true) ∧
    (sampleRec ∈ Recommendation.find_by_bought_in_last30d sampleDb false ↔
      sampleRec ∈ sampleDb.rows ∧ sampleRec.bought_in_last30d = false) ∧
    (Recommendation.find_by_last_relevance_date sampleDb "2022-01-15" =
      .ok (sampleDb.rows.filter (fun x => x.last_relevance_date == ⟨2022, 1, 15⟩))) ∧
    (sampleRec ∈ sampleDb.rows.filter (fun x => x.last_relevance_date == ⟨2022, 1, 15⟩) ↔
      sampleRec ∈ sampleDb.rows ∧ sampleRec.last_relevance_date = ⟨2022, 1, 15⟩) ∧
    (Recommendation.find_after_last_relevance_date sampleDb "2022-01-15" =
      .ok (sampleDb.rows.filter (fun x => Date.le ⟨2022, 1, 15⟩ x.last_relevance_date))) ∧
    (sampleRec ∈ sampleDb.rows.filter (fun x => Date.le ⟨2022, 1, 15⟩ x.last_relevance_date) ↔
      sampleRec ∈ sampleDb.rows ∧ Date.le ⟨2022, 1, 15⟩ sampleRec.last_relevance_date = true) ∧
    (sampleRec ∈ Recommendation.find_by_recommendation_type sampleDb Type'.TRENDING ↔
      sampleRec ∈ sampleDb.rows ∧ sampleRec.recommendation_type = Type'.TRENDING)) :=
  ⟨rfl, C1_query_facade sampleDb sampleRec 5 7 "pet owners" true false
    Type'.TRENDING "2022-01-15" ⟨2022, 1, 15⟩ rfl⟩

/-- C2: for a valid, well-typed record, serialize followed by deserialize
into a fresh record reproduces every field exactly (the id stays the
receiver's). -/
theorem C2_serialize_deserialize_roundtrip (r f : PyObj) (p u : Int) (s : String)
    (hp : r.product_id = Value.int p) (hu : r.user_id = Value.int u)
    (hs : r.user_segment = Value.str s) (hd : r.last_relevance_date.Valid) :
    Recommendation.deserialize f (Recommendation.serialize r) =
      .ok { r with id := f.id } := by
  have h1 : Date.fromisoformat (Value.str r.last_relevance_date.isoformat) =
      .ok r.last_relevance_date := by
    simp [Date.fromisoformat, Date.parseIso_isoformat r.last_relevance_date hd]
  have h2 : Type'.getattr r.recommendation_type.name =
      .member r.recommendation_type := by
    simp [Type'.getattr, Type'.fromName_name]
  have g1 : Recommendation.getItem (Recommendation.serialize r) "product_id" =
      .ok r.product_id := rfl
  have g2 : Recommendation.getItem (Recommendation.serialize r) "user_id" =
      .ok r.user_id := rfl
  have g3 : Recommendation.getItem (Recommendation.serialize r) "user_segment" =
      .ok r.user_segment := rfl
  have g4 : Recommendation.getItem (Recommendation.serialize r) "viewed_in_last7d" =
      .ok (Value.bool r.viewed_in_last7d) := rfl
  have g5 : Recommendation.getItem (Recommendation.serialize r) "bought_in_last30d" =
      .ok (Value.bool r.bought_in_last30d) := rfl
  have g6 : Recommendation.getItem (Recommendation.serialize r) "last_relevance_date" =
      .ok (Value.str r.last_relevance_date.isoformat) := rfl
  have g7 : Recommendation.getItem (Recommendation.serialize r) "recommendation_type" =
      .ok (Value.str r.recommendation_type.name) := rfl
  unfold Recommendation.deserialize
  simp only [g1, g2, g3, g4, g5, g6, g7, h1, h2]

/-- C2 witness: the round trip at a concrete valid record and a concrete
fresh receiver. -/
theorem C2_roundtrip_witness :
    sampleRec.product_id = Value.int 5 ∧ sampleRec.user_id = Value.int 7 ∧
    sampleRec.user_segment = Value.str "pet owners" ∧
    sampleRec.last_relevance_date.Valid ∧
    Recommendation.deserialize freshPyObj (Recommendation.serialize sampleRec) =
      .ok { sampleRec with id := freshPyObj.id } :=
  ⟨rfl, rfl, rfl, by decide,
   C2_serialize_deserialize_roundtrip sampleRec freshPyObj 5 7 "pet owners"
     rfl rfl rfl (by decide)⟩

/-- C3 (code bug): the enum lookup does not fail closed.  In an
otherwise-valid payload, a recommendation_type of "mro" — not one of the
nine member names — makes deserialize succeed, because getattr(Type, s)
returns the class's non-member attribute without raising AttributeError
and the non-member object is stored; a genuinely unknown name such as
"manual" does fail with the "unknown attribute" DataValidationError, as
the claim and the spec intend for every non-member string. -/
theorem C3_enum_lookup_not_fail_closed :
    (Recommendation.deserialize freshPyObj (Value.dict sampleKvsMro)).isOk = true ∧
    "mro" ∉ ["SIMILAR_PRODUCT", "RECOMMENDED_FOR_YOU", "UPGRADE",
      "FREQ_BOUGHT_TOGETHER", "ADD_ON", "TRENDING", "TOP_RATED",
      "NEW_ARRIVAL", "UNKNOWN"] ∧
    Type'.fromName "mro" = Option.none ∧
    Type'.getattr "mro" = GetattrOutcome.classAttr "mro" ∧
    Recommendation.deserialize freshPyObj (Value.dict sampleKvsBadType) =
      .error (PyError.invalidAttribute "manual") ∧
    PyError.isDataValidationError (PyError.invalidAttribute "manual") = true :=
  ⟨rfl, by decide, rfl, rfl, rfl, rfl⟩

/-- C5: the two recency flags are accepted only when boolean-typed; a
non-boolean value fails with the "wrong type" DataValidationError naming
the field and the runtime type, and on success the stored flags are the
payload's booleans. -/
theorem C5_boolean_type_check (self : PyObj) (kvs : List (String × Value))
    (vp vu vs v7 b30 : Value)
    (h1 : kvs.lookup "product_id" = some vp)
    (h2 : kvs.lookup "user_id" = some vu)
    (h3 : kvs.lookup "user_segment" = some vs)
    (h4 : kvs.lookup "viewed_in_last7d" = some v7)
    (h5 : kvs.lookup "bought_in_last30d" = some b30) :
    (v7.pyTypeName ≠ "bool" →
      Recommendation.deserialize self (Value.dict kvs) =
        .error (PyError.invalidTypeForBoolean "viewed_in_last7d" v7.pyTypeName) ∧
      PyError.isDataValidationError
        (PyError.invalidTypeForBoolean "viewed_in_last7d" v7.pyTypeName) = true) ∧
    (v7.pyTypeName = "bool" → b30.pyTypeName ≠ "bool" →
      Recommendation.deserialize self (Value.dict kvs) =
        .error (PyError.invalidTypeForBoolean "bought_in_last30d" b30.pyTypeName)) ∧
    (Except.map (fun r => Value.bool r.viewed_in_last7d)
        (Recommendation.deserialize self (Value.dict kvs)) =
      Except.map (fun _ => v7) (Recommendation.deserialize self (Value.dict kvs))) ∧
    (Except.map (fun r => Value.bool r.bought_in_last30d)
        (Recommendation.deserialize self (Value.dict kvs)) =
      Except.map (fun _ => b30) (Recommendation.deserialize self (Value.dict kvs))) := by
  have hg : ∀ (k : String) (v' : Value), kvs.lookup k = some v' →
      Recommendation.getItem (Value.dict kvs) k = .ok v' := by
    intro k v' h
    simp [Recommendation.getItem, h]
  refine ⟨?_, ?_, ?_, ?_⟩
  · intro hb
    refine ⟨?_, rfl⟩
    simp only [Recommendation.deserialize, hg _ _ h1, hg _ _ h2, hg _ _ h3,
      hg _ _ h4]
    cases v7 with
    | bool b => exact absurd rfl hb
    | none => rfl
    | int n => rfl
    | str s => rfl
    | list xs => rfl
    | dict kvs' => rfl
  · intro hb7 hb30
    cases v7 with
    | bool b =>
      simp only [Recommendation.deserialize, hg _ _ h1, hg _ _ h2, hg _ _ h3,
        hg _ _ h4, hg _ _ h5]
      cases b30 with
      | bool b' => exact absurd rfl hb30
      | none => rfl
      | int n => rfl
      | str s => rfl
      | list xs => rfl
      | dict kvs' => rfl
    | none => exact absurd hb7 (by simp [Value.pyTypeName])
    | int n => exact absurd hb7 (by simp [Value.pyTypeName])
    | str s => exact absurd hb7 (by simp [Value.pyTypeName])
    | list xs => exact absurd hb7 (by simp [Value.pyTypeName])
    | dict kvs' => exact absurd hb7 (by simp [Value.pyTypeName])
  · simp only [Recommendation.deserialize, hg _ _ h1, hg _ _ h2, hg _ _ h3,
      hg _ _ h4, hg _ _ h5]
    repeat' split
    all_goals rfl
  · simp only [Recommendation.deserialize, hg _ _ h1, hg _ _ h2, hg _ _ h3,
      hg _ _ h4, hg _ _ h5]
    repeat' split
    all_goals rfl

/-- C5 witness: the wrong-type failure at a concrete payload carrying the
string "true" for viewed_in_last7d. -/
theorem C5_boolean_type_check_witness :
    sampleKvsStrBool.lookup "product_id" = some (Value.int 5) ∧
    sampleKvsStrBool.lookup "user_id" = some (Value.int 7) ∧
    sampleKvsStrBool.lookup "user_segment" = some (Value.str "students") ∧
    sampleKvsStrBool.lookup "viewed_in_last7d" = some (Value.str "true") ∧
    sampleKvsStrBool.lookup "bought_in_last30d" = some (Value.bool false) ∧
    (((Value.str "true").pyTypeName ≠ "bool" →
      Recommendation.deserialize freshPyObj (Value.dict sampleKvsStrBool) =
        .error (PyError.invalidTypeForBoolean "viewed_in_last7d"
          (Value.str "true").pyTypeName) ∧
      PyError.isDataValidationError
        (PyError.invalidTypeForBoolean "viewed_in_last7d"
          (Value.str "true").pyTypeName) = true) ∧
    ((Value.str "true").pyTypeName = "bool" →
        (Value.bool false).pyTypeName ≠ "bool" →
      Recommendation.deserialize freshPyObj (Value.dict sampleKvsStrBool) =
        .error (PyError.invalidTypeForBoolean "bought_in_last30d"
          (Value.bool false).pyTypeName)) ∧
    (Except.map (fun r => Value.bool r.viewed_in_last7d)
        (Recommendation.deserialize freshPyObj (Value.dict sampleKvsStrBool)) =
      Except.map (fun _ => Value.str "true")
        (Recommendation.deserialize freshPyObj (Value.dict sampleKvsStrBool))) ∧
    (Except.map (fun r => Value.bool r.bought_in_last30d)
        (Recommendation.deserialize freshPyObj (Value.dict sampleKvsStrBool)) =
      Except.map (fun _ => Value.bool false)
        (Recommendation.deserialize freshPyObj (Value.dict sampleKvsStrBool)))) :=
  ⟨rfl, rfl, rfl, rfl, rfl,
   C5_boolean_type_check freshPyObj sampleKvsStrBool
     (Value.int 5) (Value.int 7) (Value.str "students") (Value.str "true")
     (Value.bool false) rfl rfl rfl rfl rfl⟩

theorem Recommendation.update_ok_ids (db : DBState) (r2 : PyObj) (db2 : DBState)
    (h : Recommendation.update db r2 = .ok db2) : db2.ids = db.ids := by
  rcases hid : r2.id with _ | i
  · simp [Recommendation.update, hid] at h
  · simp only [Recommendation.update, hid] at h
    by_cases hi : i = 0
    · simp [hi] at h
    · simp only [if_neg hi, Except.ok.injEq] at h
      rw [← h]
      show List.map (fun r => r.id)
        (db.rows.map (fun r => if r.id = some i then r2 else r)) = db.ids
      rw [List.map_map]
      unfold DBState.ids
      congr 1
      funext x
      by_cases hx : x.id = some i <;> simp [Function.comp, hx, hid]

/-- C8: the store assigns the id on first create (non-null and unique
among persisted rows, preserving well-formedness), and no update — the
model-level commit or the PUT route — ever changes the id of a persisted
record. -/
theorem C8_persisted_id_invariants (db : DBState) (self r2 : PyObj) (body : Value)
    (rec_id : Nat) (hwf : db.WF) :
    (Recommendation.create db self).2.id = some db.nextId ∧
    (Recommendation.create db self).2.id ≠ Option.none ∧
    some db.nextId ∉ db.ids ∧
    (Recommendation.create db self).1.WF ∧
    (Recommendation.create db self).1.ids = db.ids ++ [some db.nextId] ∧
    (Recommendation.updateRun db r2).1.ids = db.ids ∧
    (update_recommendations db rec_id body).1.ids = db.ids := by
  obtain ⟨hn1, hrange, hpw⟩ := hwf
  refine ⟨rfl, by simp [Recommendation.create], ?_, ⟨?_, ?_, ?_⟩, ?_, ?_, ?_⟩
  · intro hmem
    unfold DBState.ids at hmem
    obtain ⟨x, hx, hxid⟩ := List.mem_map.mp hmem
    have hr := hrange x hx
    rw [hxid] at hr
    simp at hr
  · show 1 ≤ db.nextId + 1
    omega
  · intro x hx
    rcases List.mem_append.mp hx with hx' | hx'
    · have hr := hrange x hx'
      have h2 : x.id.getD 0 < db.nextId + 1 := by omega
      exact ⟨hr.1, h2⟩
    · have hx2 : x = { self with id := some db.nextId } := by simpa using hx'
      rw [hx2]
      have h2 : db.nextId < db.nextId + 1 := by omega
      exact ⟨by simpa using hn1, h2⟩
  · show (db.rows ++ [{ self with id := some db.nextId }]).Pairwise
      (fun a b : PyObj => a.id ≠ b.id)
    rw [List.pairwise_append]
    refine ⟨hpw, by simp, ?_⟩
    intro a ha b hb
    have hb2 : b = { self with id := some db.nextId } := by simpa using hb
    have hr := hrange a ha
    rw [hb2]
    intro heq
    rw [heq] at hr
    simp at hr
  · simp [Recommendation.create, DBState.ids]
  · unfold Recommendation.updateRun
    rcases hu : Recommendation.update db r2 with e | db2
    · rfl
    · exact Recommendation.update_ok_ids db r2 db2 hu
  · rcases hf : Recommendation.find db rec_id with _ | r
    · simp only [update_recommendations, hf]
    · rcases hd : Recommendation.deserialize r body with e | r2'
      · simp only [update_recommendations, hf, hd]
      · rcases hu : Recommendation.update db { r2' with id := some rec_id }
          with e | db2
        · simp only [update_recommendations, hf, hd, hu]
        · simp only [update_recommendations, hf, hd, hu]
          exact Recommendation.update_ok_ids _ _ _ hu

/-- C8 witness: the id-assignment invariants at a concrete well-formed
two-row store. -/
theorem C8_persisted_id_invariants_witness :
    sampleDb.WF ∧
    ((Recommendation.create sampleDb freshPyObj).2.id = some sampleDb.nextId ∧
    (Recommendation.create sampleDb freshPyObj).2.id ≠ Option.none ∧
    some sampleDb.nextId ∉ sampleDb.ids ∧
    (Recommendation.create sampleDb freshPyObj).1.WF ∧
    (Recommendation.create sampleDb freshPyObj).1.ids =
      sampleDb.ids ++ [some sampleDb.nextId] ∧
    (Recommendation.updateRun sampleDb sampleRec).1.ids = sampleDb.ids ∧
    (update_recommendations sampleDb 3 (Value.dict sampleKvsBadType)).1.ids =
      sampleDb.ids) :=
  ⟨by decide,
   C8_persisted_id_invariants sampleDb freshPyObj sampleRec
     (Value.dict sampleKvsBadType) 3 (by decide)⟩
